import Mathlib

/-!
Verification development for the Yishun survey-analysis classification and
aggregation engine.

The Python source stores one respondent per row of a pandas DataFrame.  We
model a raw cell as `RawVal`: an integer survey code, a free-form string, or
`na` (NaN / Python `None`).  The survey codes are integers, so float cells of
the real dataset are modelled by their integer values.  A row (`Record`) is an
association list from column name to cell; a `DF` carries the column list and
the rows.  Python operations that can raise (`row[col]` with a missing label
raises `KeyError`) are embedded in `Except String`.
-/

inductive RawVal where
  | int (n : Int)
  | str (s : String)
  | na
deriving DecidableEq, Repr, BEq

abbrev Record := List (String × RawVal)

/-- Embeds `row.get(c)` / assoc-list lookup: `none` when the key is absent. -/
def getCell : Record → String → Option RawVal
  | [], _ => none
  | (k, v) :: rest, c => if k = c then some v else getCell rest c

/-- Setting a column value on a row: replace the first binding, else append. -/
def setCell : Record → String → RawVal → Record
  | [], c, v => [(c, v)]
  | (k, w) :: rest, c, v => if k = c then (c, v) :: rest else (k, w) :: setCell rest c v

/-- Embeds `int(x)` on a cell with NaN propagation: the common coercion used by the
source (`pd.isna` check followed by a guarded `int(...)` cast). -/
def pyToInt : RawVal → Option Int
  | .int n => some n
  | .str s => s.toInt?
  | .na => none

/-- Embeds `_to_int` from `logic/global_impressions.py`: argument is `row.get(col)`,
so a missing key behaves like NaN. -/
def to_int (x : Option RawVal) : Option Int :=
  match x with
  | none => none
  | some v => pyToInt v

/-- Python `cell == k` for an integer literal `k` (NaN and strings compare unequal). -/
def rawEqInt (v : RawVal) (k : Int) : Bool :=
  match v with
  | .int n => n == k
  | _ => false

/-- Python `row.get(c) == k`: `None == k` is `False`. -/
def optRawEqInt (x : Option RawVal) (k : Int) : Bool :=
  match x with
  | some v => rawEqInt v k
  | none => false

/-- Embeds `row.get(c, 0)`: default is the integer 0 when the key is absent. -/
def getCellD0 (r : Record) (c : String) : RawVal :=
  (getCell r c).getD (.int 0)

/-- Embeds `row[cols]` label-list indexing: raises `KeyError` when any label is absent. -/
def rowVals (r : Record) : List String → Except String (List RawVal)
  | [] => .ok []
  | c :: cs =>
    match getCell r c with
    | none => .error "KeyError"
    | some v =>
      match rowVals r cs with
      | .error e => .error e
      | .ok rest => .ok (v :: rest)

-- ============================================================
-- CF classifiers (one per complicating factor), per record
-- ============================================================

def Q107_cols : List String := ["Q107_1", "Q107_2", "Q107_3", "Q107_4"]

/-- Embeds `compute_nursing_category` from `logic/nursing_needs.py`. -/
def compute_nursing_category (r : Record) : Except String (Option Nat) :=
  match rowVals r Q107_cols with
  | .error e => .error e
  | .ok values =>
    let valid := values.filter (fun x => rawEqInt x 0 || rawEqInt x 1)
    .ok (if valid.length = 0 then none
         else
           let cnt := (valid.filter (fun x => rawEqInt x 1)).length
           if cnt = 0 then some 0
           else if cnt = 1 then some 1
           else some 2)

def Q155_cols : List String :=
  ["Q155_i", "Q155_ii", "Q155_iii", "Q155_iv", "Q155_v", "Q155_vi"]
def Q167_cols : List String :=
  ["Q167_i", "Q167_ii", "Q167_iii", "Q167_iv", "Q167_v", "Q167_vi", "Q167_vii"]

/-- Embeds `compute_FA_category` from `logic/functional_assessment.py`.  Note the
third branch tests `IADL_any_1`, exactly as in the source. -/
def compute_FA_category (r : Record) : Except String (Option Nat) :=
  match rowVals r Q155_cols with
  | .error e => .error e
  | .ok q155 =>
    match rowVals r Q167_cols with
    | .error e => .error e
    | .ok q167 =>
      let adlAll2 := q155.all (fun x => rawEqInt x 2)
      let iadlAny1 := q167.any (fun x => rawEqInt x 1)
      let iadlAll2 := q167.all (fun x => rawEqInt x 2)
      .ok (if adlAll2 && iadlAll2 then some 0
           else if adlAll2 && iadlAny1 then some 1
           else if iadlAny1 then some 2
           else none)

def FAMILY_COLS : List String := ["Q193", "Q194", "Q195"]
def FRIEND_COLS : List String := ["Q196", "Q197", "Q198"]
def ALL_LUBBEN_COLS : List String := FAMILY_COLS ++ FRIEND_COLS

/-- Embeds `LUBBEN_MAP.get(v, None)`: raw codes 1..6 map to approximate counts;
777/999/NaN/missing fall through to `None`. -/
def lubbenMap (x : Option RawVal) : Option Nat :=
  match x with
  | some (.int 1) => some 0
  | some (.int 2) => some 1
  | some (.int 3) => some 2
  | some (.int 4) => some 3
  | some (.int 5) => some 5
  | some (.int 6) => some 9
  | _ => none

/-- Embeds `compute_social_support_category` from `logic/social_support.py`. -/
def compute_social_support_category (r : Record) : Option Nat :=
  match lubbenMap (getCell r "Q193"), lubbenMap (getCell r "Q194"),
        lubbenMap (getCell r "Q195"), lubbenMap (getCell r "Q196"),
        lubbenMap (getCell r "Q197"), lubbenMap (getCell r "Q198") with
  | some q193, some q194, some q195, some q196, some q197, some q198 =>
    if (q193 + q194 > 0 && q195 > 0) || (q196 + q197 > 0 && q198 > 0) then some 0
    else if q193 + q194 + q195 + q196 + q197 + q198 == 0 then some 2
    else some 1
  | _, _, _, _, _, _ => none

/-- Embeds `compute_hospital_category` from `logic/hospital_admissions.py`:
`row["Q96"]` raises on a missing label, then missing/unparseable → None,
666/777 → None, 0 → 0, 1..2 → 1, ≥3 → 2, negative fallback → None. -/
def compute_hospital_category (r : Record) : Except String (Option Nat) :=
  match getCell r "Q96" with
  | none => .error "KeyError"
  | some val =>
    .ok (match pyToInt val with
      | none => none
      | some v =>
        if v == 666 || v == 777 then none
        else if v == 0 then some 0
        else if v == 1 || v == 2 then some 1
        else if v ≥ 3 then some 2
        else none)

/-- Embeds `compute_polypharmacy_category` from `logic/polypharmacy.py`. -/
def compute_polypharmacy_category (r : Record) : Except String (Option Nat) :=
  match getCell r "Q132" with
  | none => .error "KeyError"
  | some val =>
    .ok (match pyToInt val with
      | none => none
      | some v =>
        if v == 777 || v == 999 then none
        else if v < 5 then some 0
        else if v ≤ 8 then some 1
        else some 2)

-- ============================================================
-- Global Impression flags and the severity-precedence reducer
-- (logic/global_impressions.py)
-- ============================================================

/-- Embeds `GI_IV_COG_COLS = [f"Q{i}" for i in range(16, 27)]`. -/
def GI_IV_COG_COLS : List String :=
  ["Q16", "Q17", "Q18", "Q19", "Q20", "Q21", "Q22", "Q23", "Q24", "Q25", "Q26"]

def GI_II_NLT_COLS : List String :=
  ["Q130_G", "Q130_J", "Q130_K", "Q130_L", "Q130_O", "Q130_P", "Q130_Q",
   "Q130_S", "Q130_T", "Q130_U", "Q130_V", "Q130_W"]

def GI_III_LT_COLS : List String :=
  ["Q130_A", "Q130_B", "Q130_C", "Q130_D", "Q130_E", "Q130_F", "Q130_H",
   "Q130_I", "Q130_M"]

/-- Embeds `_map_cog_to_binary`: Pass(1) → 1; 2/777/999 → 0; anything else → None. -/
def map_cog_to_binary (x : Option RawVal) : Option Int :=
  match to_int x with
  | none => none
  | some v =>
    if v == 1 then some 1
    else if v == 2 || v == 777 || v == 999 then some 0
    else none

/-- Embeds `cond_1` of `gi_iv_flag`: proxy respondent with a dementia diagnosis. -/
def gi_iv_cond1 (r : Record) : Bool :=
  to_int (getCell r "S0") == some 2 && to_int (getCell r "Q129") == some 1

/-- Embeds `cond_2` of `gi_iv_flag`: activity-limitation answer at most 2. -/
def gi_iv_cond2 (r : Record) : Bool :=
  match to_int (getCell r "Q142") with
  | some v => decide (v ≤ 2)
  | none => false

/-- Embeds `cog_vals`: mapped cognitive items over the columns present in the row. -/
def gi_iv_cogVals (r : Record) : List (Option Int) :=
  (GI_IV_COG_COLS.filter (fun c => (getCell r c).isSome)).map
    (fun c => map_cog_to_binary (getCell r c))

/-- Embeds `cond_3` of `gi_iv_flag`: cognitive sum below 5 (None summed as 0),
False when no cognitive item is usable. -/
def gi_iv_cond3 (r : Record) : Bool :=
  if (gi_iv_cogVals r).length == 0 || (gi_iv_cogVals r).all (·.isNone) then false
  else decide (((gi_iv_cogVals r).map (fun v => v.getD 0)).sum < 5)

/-- Embeds `gi_iv_flag`: at least 2 of (proxy-with-dementia, activity-limited,
cognitive sum < 5). -/
def gi_iv_flag (r : Record) : Bool :=
  decide ((gi_iv_cond1 r).toNat + (gi_iv_cond2 r).toNat + (gi_iv_cond3 r).toNat ≥ 2)

def gi_i_flag (r : Record) : Bool :=
  (optRawEqInt (getCell r "Q124") 2 && optRawEqInt (getCell r "Q126") 2 &&
   optRawEqInt (getCell r "Q128") 2 && optRawEqInt (getCell r "Q129") 2 &&
   optRawEqInt (getCell r "Q130") 2) && !(gi_iv_flag r)

def gi_ii_flag (r : Record) : Bool :=
  let has_nlt := GI_II_NLT_COLS.any (fun c => rawEqInt (getCellD0 r c) 1)
  let has_elevated_bp := optRawEqInt (getCell r "Q124") 1 || optRawEqInt (getCell r "Q124") 3
  let not_limited := optRawEqInt (getCell r "Q142") 3
  (has_nlt || has_elevated_bp) || not_limited

def gi_iii_flag (r : Record) : Bool :=
  let has_nlt := GI_II_NLT_COLS.any (fun c => rawEqInt (getCellD0 r c) 1)
  let has_elevated_bp := optRawEqInt (getCell r "Q124") 1 || optRawEqInt (getCell r "Q124") 3
  let limited := optRawEqInt (getCell r "Q142") 1
  let has_lt := GI_III_LT_COLS.any (fun c => rawEqInt (getCellD0 r c) 1)
  let not_limited := optRawEqInt (getCell r "Q142") 3
  ((has_nlt || has_elevated_bp) && limited) || (has_lt && not_limited)

/-- Embeds `_safe_hosp` inside `gi_v_flag`: missing and the special codes
666/777/888/999 are treated as 0 hospitalizations. -/
def safe_hosp (x : Option RawVal) : Int :=
  match to_int x with
  | none => 0
  | some v => if v == 666 || v == 777 || v == 888 || v == 999 then 0 else v

def gi_v_flag (r : Record) : Bool :=
  let has_2plus_hosp :=
    decide (safe_hosp (getCell r "Q96") ≥ 2) || decide (safe_hosp (getCell r "Q103") ≥ 2)
  let has_life_threatening := GI_III_LT_COLS.any (fun c => to_int (getCell r c) == some 1)
  has_2plus_hosp && has_life_threatening

/-- Embeds `assign_gi_label`: one label per person, most severe flag first. -/
def assign_gi_label (r : Record) : String :=
  if gi_v_flag r then "GI V"
  else if gi_iv_flag r then "GI IV"
  else if gi_iii_flag r then "GI III"
  else if gi_ii_flag r then "GI II"
  else if gi_i_flag r then "GI I"
  else "Unclassified"

/-- Embeds `_map_gi_to_cf_k` from `logic/specialist_medical_service_needs.py`
(the NaN branch is unreachable for a freshly assigned label, which is always
one of the six strings). -/
def map_gi_to_cf_k (l : String) : Option Nat :=
  if l == "GI III" || l == "GI IV" then some 1
  else if l == "GI V" then some 2
  else some 0

/-- CF K per record: relabeling of the freshly computed `GI_Assigned`. -/
def specialist_cf_k (r : Record) : Option Nat :=
  map_gi_to_cf_k (assign_gi_label r)

-- ============================================================
-- DataFrame model and the dataset-level helpers
-- ============================================================

structure DF where
  cols : List String
  rows : List Record
deriving DecidableEq, Repr

/-- Embeds `c in df.columns`. -/
def dfHasCol (df : DF) (c : String) : Bool := df.cols.contains c

/-- Column list after `df[out] = ...`: appended if new, unchanged otherwise. -/
def addColName (cs : List String) (c : String) : List String :=
  if cs.contains c then cs else cs ++ [c]

/-- A derived label stored back into a frame: `None` is kept as NaN. -/
def labelVal : Option Nat → RawVal
  | none => .na
  | some n => .int (n : Int)

def optIntVal : Option Int → RawVal
  | none => .na
  | some n => .int n

/-- The value of column `c` in row `r` of a well-formed frame (`df[c]`
column access; every row of a frame carries every frame column). -/
def cellOf (r : Record) (c : String) : RawVal := (getCell r c).getD .na

/-- One whole column of a frame, as the per-row lookup results. -/
def colVals (df : DF) (c : String) : List (Option RawVal) :=
  df.rows.map (fun r => getCell r c)

-- ------------------------------------------------------------
-- logic/utilization_helpers.py
-- ------------------------------------------------------------

/-- Embeds `to_num` inside `build_gp_visits`: NaN/unparseable → None,
666/777 → None, negative → None, else the count. -/
def to_num_visits (v : RawVal) : Option Int :=
  match pyToInt v with
  | none => none
  | some n =>
    if n == 666 || n == 777 then none
    else if n < 0 then none
    else some n

/-- Embeds `build_gp_visits`: copies the frame; when the source column is absent the
output column is all-None, otherwise it is the cleaned visit count. -/
def build_gp_visits (df : DF) (sourceCol outCol : String) : DF :=
  if dfHasCol df sourceCol then
    { cols := addColName df.cols outCol,
      rows := df.rows.map (fun r => setCell r outCol (optIntVal (to_num_visits (cellOf r sourceCol)))) }
  else
    { cols := addColName df.cols outCol,
      rows := df.rows.map (fun r => setCell r outCol .na) }

-- ------------------------------------------------------------
-- logic/demographics_helpers.py
-- ------------------------------------------------------------

/-- Embeds `bin_age` with the default inclusive range table. -/
def bin_age (v : RawVal) : RawVal :=
  match pyToInt v with
  | none => .na
  | some n =>
    if n ≤ 39 then .str "<40"
    else if 40 ≤ n && n ≤ 65 then .str "40–65"
    else if 66 ≤ n && n ≤ 85 then .str "65–85"
    else .str ">=85"

/-- Embeds `add_age_bins`: copies the frame; absent age column degrades to all-None. -/
def add_age_bins (df : DF) (ageCol outCol : String) : DF :=
  if dfHasCol df ageCol then
    { cols := addColName df.cols outCol,
      rows := df.rows.map (fun r => setCell r outCol (bin_age (cellOf r ageCol))) }
  else
    { cols := addColName df.cols outCol,
      rows := df.rows.map (fun r => setCell r outCol .na) }

-- ------------------------------------------------------------
-- Fine utilisation binning (logic/global_impressions.py) and the
-- coarse in-table binning (logic/utilization.py)
-- ------------------------------------------------------------

/-- Embeds `bin_util_value`: buckets to "0", "1".."10", "11+"; NaN/unparseable →
None (excluded).  There is no sentinel handling here: 666/777 fall in "11+". -/
def bin_util_value (v : RawVal) : Option String :=
  match v with
  | .na => none
  | .int n => some (if n ≤ 0 then "0" else if n ≤ 10 then toString n else "11+")
  | .str s =>
    match s.toInt? with
    | none => none
    | some n => some (if n ≤ 0 then "0" else if n ≤ 10 then toString n else "11+")

/-- The utilisation-bin column of `util_counts_long_for_gi`:
`tmp[util_q].apply(bin_util_value)` over the raw question column. -/
def util_bin_col (df : DF) (q : String) : List (Option String) :=
  df.rows.map (fun r => bin_util_value (cellOf r q))

/-- Embeds `to_bin` inside `build_cf_x_utilization_binned_tables_per_question`
with its default `bins=(2,5)`: missing → 0, unparseable → 0, 666/777 → 0,
then 0 / 1–2 / 3–5 / 6+. -/
def to_bin (v : RawVal) : String :=
  let f : Int :=
    match v with
    | .na => 0
    | .int n => if n == 666 || n == 777 then 0 else n
    | .str s =>
      match s.toInt? with
      | none => 0
      | some n => if n == 666 || n == 777 then 0 else n
  if f ≤ 0 then "0 visits"
  else if f ≤ 2 then "1–2 visits"
  else if f ≤ 5 then "3–5 visits"
  else "6+ visits"

-- ------------------------------------------------------------
-- The "Total" column of the CF × utilization binned tables
-- (logic/utilization.py)
-- ------------------------------------------------------------

/-- The hard-coded bin headers of the table; the first is the Total column. -/
def bin_labels : List String :=
  ["Total (N=2499)", "0 visits", "1–2 visits", "3–5 visits", "6+ visits"]

def cfIsIn (r : Record) (cfCol : String) (order : List Int) : Bool :=
  match getCell r cfCol with
  | some (.int n) => order.contains n
  | _ => false

/-- Embeds `overall_n = int(base[cf_col].isin(category_order).sum())`. -/
def overall_n (df : DF) (cfCol : String) (order : List Int) : Nat :=
  (df.rows.filter (fun r => cfIsIn r cfCol order)).length

/-- Embeds `n_cat = int(base_q[cf_col].eq(cat).sum())`. -/
def n_cat (df : DF) (cfCol : String) (cat : Int) : Nat :=
  (df.rows.filter (fun r => optRawEqInt (getCell r cfCol) cat)).length

/-- Embeds `pct_total = (n_cat / overall_n * 100) if overall_n > 0 else 0.0`. -/
def pct_total (df : DF) (cfCol : String) (order : List Int) (cat : Int) : ℚ :=
  if overall_n df cfCol order > 0 then
    (n_cat df cfCol cat : ℚ) / (overall_n df cfCol order : ℚ) * 100
  else 0

-- ------------------------------------------------------------
-- Row-wise CF distribution (logic/cf_distribution_helpers.py)
-- ------------------------------------------------------------

def grpEq (r : Record) (groupCol : String) (g : String) : Bool :=
  match getCell r groupCol with
  | some (.str s) => s == g
  | _ => false

def grpIsIn (r : Record) (groupCol : String) (order : List String) : Bool :=
  match getCell r groupCol with
  | some (.str s) => order.contains s
  | _ => false

/-- A row retained by `cf_distribution_rowwise_by_group`'s filters
(`dropna` on the two columns, then `isin(cf_order)` and `isin(group_order)`;
NaN is never `isin`, so the two `isin` filters subsume the `dropna`). -/
def rowRetained (cfCol groupCol : String) (cfOrder : List Int)
    (groupOrder : List String) (r : Record) : Bool :=
  cfIsIn r cfCol cfOrder && grpIsIn r groupCol groupOrder

/-- The `n` cell of the crosstab for category `cat` and group `g`. -/
def ct_n (df : DF) (cfCol groupCol : String) (cfOrder : List Int)
    (groupOrder : List String) (cat : Int) (g : String) : Nat :=
  (df.rows.filter (fun r =>
    rowRetained cfCol groupCol cfOrder groupOrder r
      && optRawEqInt (getCell r cfCol) cat && grpEq r groupCol g)).length

/-- Embeds `cf_total`: all retained members of the category across the groups. -/
def cf_total (df : DF) (cfCol groupCol : String) (cfOrder : List Int)
    (groupOrder : List String) (cat : Int) : Nat :=
  (df.rows.filter (fun r =>
    rowRetained cfCol groupCol cfOrder groupOrder r
      && optRawEqInt (getCell r cfCol) cat)).length

/-- Embeds `Percent = n / cf_total * 100`. -/
def row_pct (df : DF) (cfCol groupCol : String) (cfOrder : List Int)
    (groupOrder : List String) (cat : Int) (g : String) : ℚ :=
  (ct_n df cfCol groupCol cfOrder groupOrder cat g : ℚ)
    / (cf_total df cfCol groupCol cfOrder groupOrder cat : ℚ) * 100

-- ------------------------------------------------------------
-- Imputation passes (logic/nursing_needs.py, logic/polypharmacy.py)
-- and column derivation with explicit argument-state passing.
-- Each Python function is embedded as `df ↦ (argument after the call,
-- returned frame)`, so mutation of the caller's frame is visible.
-- ------------------------------------------------------------

/-- Embeds `pd.to_numeric(col, errors="coerce")` on one cell. -/
def pyToNumCell (v : RawVal) : RawVal :=
  match v with
  | .int n => .int n
  | .na => .na
  | .str s =>
    match s.toInt? with
    | some n => .int n
    | none => .na

/-- Embeds `.replace(mapping)` on one numeric cell. -/
def replaceVal (m : List (Int × Int)) (v : RawVal) : RawVal :=
  match v with
  | .int n =>
    match m.lookup n with
    | some k => .int k
    | none => .int n
  | x => x

/-- One imputed cell: `to_numeric` then `replace`. -/
def imputeCell (m : List (Int × Int)) (v : RawVal) : RawVal :=
  replaceVal m (pyToNumCell v)

/-- Apply `g` to every row cell whose key is one of `cols` and present in the
frame's column list (the `if c in df.columns` guard of the source loops). -/
def rowMapCells (p : String → Bool) (g : RawVal → RawVal) : Record → Record
  | [] => []
  | (k, w) :: rest => (k, if p k then g w else w) :: rowMapCells p g rest

def mapCols (df : DF) (cols : List String) (g : RawVal → RawVal) : DF :=
  { cols := df.cols,
    rows := df.rows.map (rowMapCells (fun k => cols.contains k && df.cols.contains k) g) }

/-- Classify a row and store the label into its `outCol` cell. -/
def classifyAndSet (outCol : String) (classify : Record → Except String (Option Nat))
    (r : Record) : Except String Record :=
  match classify r with
  | .error e => .error e
  | .ok lab => .ok (setCell r outCol (labelVal lab))

/-- Embeds `df.apply(classify, axis=1)` stored into a column, row by row. -/
def mapRows (f : Record → Except String Record) : List Record → Except String (List Record)
  | [] => .ok []
  | r :: rs =>
    match f r with
    | .error e => .error e
    | .ok r' =>
      match mapRows f rs with
      | .error e => .error e
      | .ok rs' => .ok (r' :: rs')

/-- The shared shape of `add_nursing_column_imputed` and
`add_polypharmacy_column_imputed`: copy the frame, remap the sentinel codes
of the imputation columns, recompute the label with the SAME classifier, and
return the copy (the argument frame is left as it was). -/
def impute_pass (icols : List String) (m : List (Int × Int)) (outCol : String)
    (classify : Record → Except String (Option Nat)) (df : DF) :
    Except String (DF × DF) :=
  let dfImp := mapCols df icols (imputeCell m)
  match mapRows (classifyAndSet outCol classify) dfImp.rows with
  | .error e => .error e
  | .ok rows' => .ok (df, { cols := addColName dfImp.cols outCol, rows := rows' })

/-- Embeds `add_nursing_column_imputed`: Q107 999 → 0, recompute with
`compute_nursing_category`. -/
def add_nursing_column_imputed (df : DF) : Except String (DF × DF) :=
  impute_pass Q107_cols [(999, 0)] "Nursing_Needs_Imputed" compute_nursing_category df

/-- Embeds `add_polypharmacy_column_imputed`: Q132 777/999 → 0, recompute with
`compute_polypharmacy_category`. -/
def add_polypharmacy_column_imputed (df : DF) : Except String (DF × DF) :=
  impute_pass ["Q132"] [(777, 0), (999, 0)] "Polypharmacy_CF_Imputed"
    compute_polypharmacy_category df

/-- Embeds `add_FA_column`: `df["Functional_Assessment"] = df.apply(...)`; the column
is written into the argument frame itself and the same frame is returned, so
both components of the result are that frame. -/
def add_FA_column (df : DF) : Except String (DF × DF) :=
  match mapRows (classifyAndSet "Functional_Assessment" compute_FA_category) df.rows with
  | .error e => .error e
  | .ok rows' =>
    let df' : DF := { cols := addColName df.cols "Functional_Assessment", rows := rows' }
    .ok (df', df')

-- ============================================================
-- Sentinel vocabulary shared by several claims
-- ============================================================

/-- A cell that is a sentinel code (666/777/888/999) or missing (NaN). -/
def sentinelOrNa (v : RawVal) : Bool :=
  match v with
  | .na => true
  | .int n => n == 666 || n == 777 || n == 888 || n == 999
  | .str _ => false

/-- Column `c` is present in the row and holds a sentinel/missing cell. -/
def colSentinel (r : Record) (c : String) : Bool :=
  match getCell r c with
  | some v => sentinelOrNa v
  | none => false

def allSentinel (r : Record) (cols : List String) : Bool :=
  cols.all (fun c => colSentinel r c)

/-- Every question column consumed by some Global Impression flag predicate. -/
def GI_RELEVANT_COLS : List String :=
  ["S0", "Q129", "Q142", "Q124", "Q126", "Q128", "Q130", "Q96", "Q103"]
    ++ GI_IV_COG_COLS ++ GI_II_NLT_COLS ++ GI_III_LT_COLS

-- ============================================================
-- C3: severity precedence of the GI assignment reducer
-- ============================================================

/-- The five (possibly overlapping) flags, most severe first. -/
def gi_flags (r : Record) : List (String × Bool) :=
  [("GI V", gi_v_flag r), ("GI IV", gi_iv_flag r), ("GI III", gi_iii_flag r),
   ("GI II", gi_ii_flag r), ("GI I", gi_i_flag r)]

/-- Severity rank: V > IV > III > II > I > Unclassified. -/
def sevRank : String → Nat
  | "GI V" => 5
  | "GI IV" => 4
  | "GI III" => 3
  | "GI II" => 2
  | "GI I" => 1
  | _ => 0

/-- C3: for every record on which both the GI-III and the GI-V predicates
hold, `assign_gi_label` returns "GI V" and never "GI III"; in general the
assigned label is a flag that holds of maximal severity in the fixed order
V > IV > III > II > I, and "Unclassified" exactly when no flag holds. -/
theorem assign_gi_label_severity_precedence (r : Record)
    (h3 : gi_iii_flag r = true) (h5 : gi_v_flag r = true) :
    assign_gi_label r = "GI V" ∧ assign_gi_label r ≠ "GI III" ∧
    ∀ r' : Record,
      (∀ p ∈ gi_flags r', p.2 = true → sevRank p.1 ≤ sevRank (assign_gi_label r')) ∧
      ((∃ p ∈ gi_flags r', p.2 = true) → (assign_gi_label r', true) ∈ gi_flags r') ∧
      ((∀ p ∈ gi_flags r', p.2 = false) → assign_gi_label r' = "Unclassified") := by
  refine ⟨by simp [assign_gi_label, h5], by simp [assign_gi_label, h5], ?_⟩
  intro r'
  cases hv : gi_v_flag r' <;> cases hiv : gi_iv_flag r' <;>
    cases hiii : gi_iii_flag r' <;> cases hii : gi_ii_flag r' <;>
    cases hi : gi_i_flag r' <;>
      simp [assign_gi_label, gi_flags, sevRank, hv, hiv, hiii, hii, hi]

/-- A record meeting both the GI-III predicate (life-threatening condition
while not activity-limited) and the GI-V predicate (2+ public admissions with
a life-threatening condition). -/
def rGI35 : Record := [("Q130_A", .int 1), ("Q142", .int 3), ("Q96", .int 2)]

/-- Witness for C3 at a record satisfying GI-III and GI-V simultaneously. -/
theorem assign_gi_label_severity_precedence_witness :
    gi_iii_flag rGI35 = true ∧ gi_v_flag rGI35 = true ∧
      assign_gi_label rGI35 = "GI V" :=
  ⟨by decide, by decide,
    (assign_gi_label_severity_precedence rGI35 (by decide) (by decide)).1⟩

-- ============================================================
-- C1: all-sentinel records — counterexample at CF K
-- ============================================================

/-- A record in which every column consumed by the GI flag predicates holds
the sentinel code 777 (refused). -/
def rAll777 : Record := GI_RELEVANT_COLS.map (fun c => (c, RawVal.int 777))

/-- C1 counterexample: on a record whose relevant columns are all the
sentinel 777, the Specialist Medical Service Needs classifier (CF K) returns
0, not None: the GI assignment is "Unclassified" and `_map_gi_to_cf_k` sends
every label other than GI III/IV/V to 0. -/
theorem specialist_cf_k_all_sentinel_counterexample :
    rAll777.all (fun kv => sentinelOrNa kv.2) = true ∧
      assign_gi_label rAll777 = "Unclassified" ∧
      specialist_cf_k rAll777 = some 0 := by
  refine ⟨by decide, by decide, by decide⟩

-- ============================================================
-- C2: Functional Assessment branches — counterexample
-- ============================================================

/-- One ADL deficit (Q155_i = 1), no IADL deficit (all Q167 = 2). -/
def rADLonly : Record :=
  [("Q155_i", .int 1), ("Q155_ii", .int 2), ("Q155_iii", .int 2),
   ("Q155_iv", .int 2), ("Q155_v", .int 2), ("Q155_vi", .int 2),
   ("Q167_i", .int 2), ("Q167_ii", .int 2), ("Q167_iii", .int 2),
   ("Q167_iv", .int 2), ("Q167_v", .int 2), ("Q167_vi", .int 2),
   ("Q167_vii", .int 2)]

/-- C2 counterexample: an ADL item equal to 1 with every IADL item equal to 2
is unscored (None), not category 2 — the `2` branch of the source requires an
IADL deficit. -/
theorem compute_FA_category_adl_only_counterexample :
    getCell rADLonly "Q155_i" = some (.int 1) ∧
      compute_FA_category rADLonly = .ok none := by
  refine ⟨by decide, rfl⟩

-- ============================================================
-- C4: sentinel coercion in the GI flag predicates — counterexample
-- ============================================================

/-- Activity-limited (Q142 = 1) and every cognitive item refused (777). -/
def rCog777 : Record :=
  ("Q142", RawVal.int 1) :: GI_IV_COG_COLS.map (fun c => (c, RawVal.int 777))

/-- Same record but with the cognitive items missing instead of refused. -/
def rCogNa : Record :=
  ("Q142", RawVal.int 1) :: GI_IV_COG_COLS.map (fun c => (c, RawVal.na))

/-- C4 counterexample: the GI predicates silently coerce sentinels to 0 —
`_safe_hosp` maps 666 to 0 hospitalizations, `_map_cog_to_binary` maps the
sentinel 777 to the same value as a valid Fail (2), and that coercion flips
`gi_iv_flag` to True on a record whose cognitive items are all refused. -/
theorem gi_sentinel_coercion_counterexample :
    safe_hosp (some (.int 666)) = 0 ∧
      map_cog_to_binary (some (.int 777)) = map_cog_to_binary (some (.int 2)) ∧
      map_cog_to_binary (some (.int 777)) = some 0 ∧
      gi_iv_flag rCog777 = true ∧ gi_iv_flag rCogNa = false := by
  refine ⟨by decide, by decide, by decide, by decide, by decide⟩

-- ============================================================
-- C5: the "Total (N=2499)" column denominator — code_bug evidence
-- ============================================================

/-- Three rows: two scored (CF = 0) and one unscored (CF = NaN). -/
def dfTotalPct : DF :=
  { cols := ["CF"],
    rows := [[("CF", .int 0)], [("CF", .int 0)], [("CF", .na)]] }

/-- C5: the table header hard-codes "Total (N=2499)" while the percentage is
computed against `overall_n`, the count of rows whose CF value is scored; on
a frame with an unscored row the two disagree (here 2/2 = 100%, whereas the
labeled denominator would give 2/2499). -/
theorem pct_total_uses_scored_subset :
    bin_labels.head? = some "Total (N=2499)" ∧
      overall_n dfTotalPct "CF" [0, 1, 2] = 2 ∧
      pct_total dfTotalPct "CF" [0, 1, 2] 0 = 100 ∧
      ((2 : ℚ) / 2499 * 100) ≠ 100 := by
  have h1 : overall_n dfTotalPct "CF" [0, 1, 2] = 2 := by decide
  have h2 : n_cat dfTotalPct "CF" 0 = 2 := by decide
  refine ⟨rfl, h1, ?_, by norm_num⟩
  unfold pct_total
  rw [h1, h2]
  norm_num

-- ============================================================
-- C6: divergent sentinel handling of the two binning schemes
-- ============================================================

/-- One respondent who was unable to recall their GP visit count. -/
def dfRecall666 : DF := { cols := ["Q78"], rows := [[("Q78", .int 666)]] }

/-- C6 counterexample: the fine (0,1,...,10,11+) scheme is applied to the raw
column with no sentinel cleaning — the 666 row is retained and bucketed as
"11+", not mapped to missing. -/
theorem fine_binning_retains_sentinel_counterexample :
    util_bin_col dfRecall666 "Q78" = [some "11+"] ∧
      bin_util_value (.int 666) = some "11+" := by
  refine ⟨by decide, by decide⟩

/-- C6 amended: the `build_gp_visits` cleaning step maps 666/777 to missing
and feeds the coarse 0/1–2/3–5/6+ scheme; the coarse `to_bin` helper used
inside the CF × utilization tables treats 666/777 (and missing) as 0 visits;
the fine 0..10/11+ scheme buckets 666/777 as "11+".  Each call site keeps its
own behavior. -/
theorem utilization_sentinel_schemes_amended :
    to_num_visits (.int 666) = none ∧ to_num_visits (.int 777) = none ∧
      to_bin (.int 666) = "0 visits" ∧ to_bin (.int 777) = "0 visits" ∧
      to_bin .na = "0 visits" ∧
      bin_util_value (.int 666) = some "11+" ∧
      bin_util_value (.int 777) = some "11+" := by
  refine ⟨by decide, by decide, by decide, by decide, by decide, by decide, by decide⟩

-- ============================================================
-- Sentinel lemmas
-- ============================================================

theorem sentinel_cases {v : RawVal} (h : sentinelOrNa v = true) :
    v = .na ∨ v = .int 666 ∨ v = .int 777 ∨ v = .int 888 ∨ v = .int 999 := by
  cases v with
  | na => exact Or.inl rfl
  | str s => simp [sentinelOrNa] at h
  | int n =>
    right
    simp [sentinelOrNa] at h
    rcases h with ((h | h) | h) | h
    · exact Or.inl (by rw [h])
    · exact Or.inr (Or.inl (by rw [h]))
    · exact Or.inr (Or.inr (Or.inl (by rw [h])))
    · exact Or.inr (Or.inr (Or.inr (by rw [h])))

theorem sentinel_rawEqInt_false {v : RawVal} (h : sentinelOrNa v = true)
    (k : Int) (hk0 : 0 ≤ k) (hk : k ≤ 5) : rawEqInt v k = false := by
  rcases sentinel_cases h with rfl | rfl | rfl | rfl | rfl
  · rfl
  all_goals simp [rawEqInt] ; omega

theorem sentinel_optRawEqInt_false {v : RawVal} (h : sentinelOrNa v = true)
    (k : Int) (hk0 : 0 ≤ k) (hk : k ≤ 5) : optRawEqInt (some v) k = false :=
  sentinel_rawEqInt_false h k hk0 hk

theorem sentinel_lubben_none {v : RawVal} (h : sentinelOrNa v = true) :
    lubbenMap (some v) = none := by
  rcases sentinel_cases h with rfl | rfl | rfl | rfl | rfl <;> rfl

theorem sentinel_safe_hosp_zero {v : RawVal} (h : sentinelOrNa v = true) :
    safe_hosp (some v) = 0 := by
  rcases sentinel_cases h with rfl | rfl | rfl | rfl | rfl <;> rfl

theorem sentinel_to_int_beq_false {v : RawVal} (h : sentinelOrNa v = true)
    (k : Int) (hk0 : 0 ≤ k) (hk : k ≤ 5) : (to_int (some v) == some k) = false := by
  rcases sentinel_cases h with rfl | rfl | rfl | rfl | rfl
  · rfl
  all_goals simp [to_int, pyToInt] ; omega

theorem colSentinel_elim {r : Record} {c : String} (h : colSentinel r c = true) :
    ∃ v, getCell r c = some v ∧ sentinelOrNa v = true := by
  unfold colSentinel at h
  cases hg : getCell r c with
  | none => rw [hg] at h ; exact absurd h (by simp)
  | some v => rw [hg] at h ; exact ⟨v, rfl, h⟩

theorem allSentinel_elim {r : Record} {cols : List String}
    (h : allSentinel r cols = true) : ∀ c ∈ cols, colSentinel r c = true := by
  rw [allSentinel, List.all_eq_true] at h
  exact h

/-- When every listed column is sentinel/missing, `row[cols]` succeeds and
every extracted value is sentinel/missing. -/
theorem rowVals_all_sentinel {r : Record} {cols : List String}
    (h : allSentinel r cols = true) :
    ∃ l, rowVals r cols = .ok l ∧ l.length = cols.length ∧
      ∀ v ∈ l, sentinelOrNa v = true := by
  induction cols with
  | nil => exact ⟨[], rfl, rfl, by simp⟩
  | cons c cs ih =>
    rw [allSentinel, List.all_cons, Bool.and_eq_true] at h
    obtain ⟨v, hg, hs⟩ := colSentinel_elim h.1
    obtain ⟨l, hrv, hlen, hall⟩ := ih h.2
    refine ⟨v :: l, ?_, by simp [hlen], ?_⟩
    · simp [rowVals, hg, hrv]
    · intro w hw
      rcases List.mem_cons.mp hw with rfl | hw
      · exact hs
      · exact hall w hw

theorem any_cols_sentinel_eq1_false {r : Record} {cols : List String}
    (h : ∀ c ∈ cols, colSentinel r c = true) :
    cols.any (fun c => rawEqInt (getCellD0 r c) 1) = false := by
  rw [List.any_eq_false]
  intro c hc
  obtain ⟨v, hg, hs⟩ := colSentinel_elim (h c hc)
  simp [getCellD0, hg, sentinel_rawEqInt_false hs 1 (by norm_num) (by norm_num)]

theorem col_optRawEqInt_false {r : Record} {c : String} (h : colSentinel r c = true)
    (k : Int) (hk0 : 0 ≤ k) (hk : k ≤ 5) : optRawEqInt (getCell r c) k = false := by
  obtain ⟨v, hg, hs⟩ := colSentinel_elim h
  rw [hg]
  exact sentinel_optRawEqInt_false hs k hk0 hk

theorem gi_v_flag_false_of_sentinel {r : Record}
    (h96 : colSentinel r "Q96" = true) (h103 : colSentinel r "Q103" = true) :
    gi_v_flag r = false := by
  obtain ⟨v96, hg96, hs96⟩ := colSentinel_elim h96
  obtain ⟨v103, hg103, hs103⟩ := colSentinel_elim h103
  simp [gi_v_flag, hg96, hg103, sentinel_safe_hosp_zero hs96,
    sentinel_safe_hosp_zero hs103]

theorem gi_iv_cond1_false_of_sentinel {r : Record}
    (hS0 : colSentinel r "S0" = true) : gi_iv_cond1 r = false := by
  obtain ⟨v, hg, hs⟩ := colSentinel_elim hS0
  simp [gi_iv_cond1, hg, sentinel_to_int_beq_false hs 2 (by norm_num) (by norm_num)]

theorem gi_iv_cond2_false_of_sentinel {r : Record}
    (h142 : colSentinel r "Q142" = true) : gi_iv_cond2 r = false := by
  obtain ⟨v, hg, hs⟩ := colSentinel_elim h142
  rcases sentinel_cases hs with rfl | rfl | rfl | rfl | rfl <;>
    simp [gi_iv_cond2, hg, to_int, pyToInt]

theorem gi_iv_flag_false_of_sentinel {r : Record}
    (hS0 : colSentinel r "S0" = true) (h142 : colSentinel r "Q142" = true) :
    gi_iv_flag r = false := by
  rw [gi_iv_flag, gi_iv_cond1_false_of_sentinel hS0, gi_iv_cond2_false_of_sentinel h142]
  cases h3 : gi_iv_cond3 r <;> simp

theorem gi_iii_flag_false_of_sentinel {r : Record}
    (hnlt : ∀ c ∈ GI_II_NLT_COLS, colSentinel r c = true)
    (hlt : ∀ c ∈ GI_III_LT_COLS, colSentinel r c = true)
    (h124 : colSentinel r "Q124" = true) (h142 : colSentinel r "Q142" = true) :
    gi_iii_flag r = false := by
  simp [gi_iii_flag, any_cols_sentinel_eq1_false hnlt, any_cols_sentinel_eq1_false hlt,
    col_optRawEqInt_false h124 1 (by norm_num) (by norm_num),
    col_optRawEqInt_false h124 3 (by norm_num) (by norm_num),
    col_optRawEqInt_false h142 1 (by norm_num) (by norm_num),
    col_optRawEqInt_false h142 3 (by norm_num) (by norm_num)]

theorem gi_ii_flag_false_of_sentinel {r : Record}
    (hnlt : ∀ c ∈ GI_II_NLT_COLS, colSentinel r c = true)
    (h124 : colSentinel r "Q124" = true) (h142 : colSentinel r "Q142" = true) :
    gi_ii_flag r = false := by
  simp [gi_ii_flag, any_cols_sentinel_eq1_false hnlt,
    col_optRawEqInt_false h124 1 (by norm_num) (by norm_num),
    col_optRawEqInt_false h124 3 (by norm_num) (by norm_num),
    col_optRawEqInt_false h142 3 (by norm_num) (by norm_num)]

theorem gi_i_flag_false_of_sentinel {r : Record}
    (h124 : colSentinel r "Q124" = true) : gi_i_flag r = false := by
  simp [gi_i_flag, col_optRawEqInt_false h124 2 (by norm_num) (by norm_num)]

/-- A record whose GI-relevant columns are all sentinel/missing is assigned
"Unclassified". -/
theorem assign_unclassified_of_all_sentinel {r : Record}
    (h : allSentinel r GI_RELEVANT_COLS = true) :
    assign_gi_label r = "Unclassified" := by
  have hcs := allSentinel_elim h
  have hsubN : ∀ c ∈ GI_II_NLT_COLS, c ∈ GI_RELEVANT_COLS := by decide
  have hsubL : ∀ c ∈ GI_III_LT_COLS, c ∈ GI_RELEVANT_COLS := by decide
  have hnlt : ∀ c ∈ GI_II_NLT_COLS, colSentinel r c = true :=
    fun c hc => hcs c (hsubN c hc)
  have hlt : ∀ c ∈ GI_III_LT_COLS, colSentinel r c = true :=
    fun c hc => hcs c (hsubL c hc)
  have hv := gi_v_flag_false_of_sentinel (hcs "Q96" (by decide)) (hcs "Q103" (by decide))
  have hiv := gi_iv_flag_false_of_sentinel (hcs "S0" (by decide)) (hcs "Q142" (by decide))
  have hiii := gi_iii_flag_false_of_sentinel hnlt hlt (hcs "Q124" (by decide))
    (hcs "Q142" (by decide))
  have hii := gi_ii_flag_false_of_sentinel hnlt (hcs "Q124" (by decide))
    (hcs "Q142" (by decide))
  have hi := gi_i_flag_false_of_sentinel (hcs "Q124" (by decide))
  simp [assign_gi_label, hv, hiv, hiii, hii, hi]

/-- C1 amended: every classifier that scores from its own survey columns
(Nursing Needs, Social Support, Functional Assessment) returns None when all
its relevant columns are sentinel codes or missing; the Specialist Medical
Service Needs classifier (CF K) is the exception — on such records the GI
assignment is "Unclassified", which `_map_gi_to_cf_k` relabels as 0, not
None. -/
theorem all_sentinel_unscored_amended :
    (∀ r : Record, allSentinel r Q107_cols = true →
        compute_nursing_category r = .ok none) ∧
    (∀ r : Record, allSentinel r ALL_LUBBEN_COLS = true →
        compute_social_support_category r = none) ∧
    (∀ r : Record, allSentinel r (Q155_cols ++ Q167_cols) = true →
        compute_FA_category r = .ok none) ∧
    (∀ r : Record, allSentinel r GI_RELEVANT_COLS = true →
        specialist_cf_k r = some 0) := by
  refine ⟨?_, ?_, ?_, ?_⟩
  · intro r h
    obtain ⟨l, hrv, hlen, hall⟩ := rowVals_all_sentinel h
    have hfil : l.filter (fun x => rawEqInt x 0 || rawEqInt x 1) = [] := by
      rw [List.filter_eq_nil_iff]
      intro v hv
      simp [sentinel_rawEqInt_false (hall v hv) 0 (by norm_num) (by norm_num),
        sentinel_rawEqInt_false (hall v hv) 1 (by norm_num) (by norm_num)]
    simp [compute_nursing_category, hrv, hfil]
  · intro r h
    have hcs := allSentinel_elim h
    obtain ⟨v1, hg1, hs1⟩ := colSentinel_elim (hcs "Q193" (by decide))
    obtain ⟨v2, hg2, hs2⟩ := colSentinel_elim (hcs "Q194" (by decide))
    obtain ⟨v3, hg3, hs3⟩ := colSentinel_elim (hcs "Q195" (by decide))
    obtain ⟨v4, hg4, hs4⟩ := colSentinel_elim (hcs "Q196" (by decide))
    obtain ⟨v5, hg5, hs5⟩ := colSentinel_elim (hcs "Q197" (by decide))
    obtain ⟨v6, hg6, hs6⟩ := colSentinel_elim (hcs "Q198" (by decide))
    simp [compute_social_support_category, hg1, hg2, hg3, hg4, hg5, hg6,
      sentinel_lubben_none hs1, sentinel_lubben_none hs2, sentinel_lubben_none hs3,
      sentinel_lubben_none hs4, sentinel_lubben_none hs5, sentinel_lubben_none hs6]
  · intro r h
    rw [allSentinel, List.all_append, Bool.and_eq_true] at h
    have hA155 : allSentinel r Q155_cols = true := h.1
    have hA167 : allSentinel r Q167_cols = true := h.2
    obtain ⟨l1, hrv1, hlen1, hall1⟩ := rowVals_all_sentinel hA155
    obtain ⟨l2, hrv2, hlen2, hall2⟩ := rowVals_all_sentinel hA167
    have hadl : l1.all (fun x => rawEqInt x 2) = false := by
      cases l1 with
      | nil => simp [Q155_cols] at hlen1
      | cons a as =>
        have ha : rawEqInt a 2 = false :=
          sentinel_rawEqInt_false (hall1 a (by simp)) 2 (by norm_num) (by norm_num)
        simp [List.all_cons, ha]
    have hany : l2.any (fun x => rawEqInt x 1) = false := by
      rw [List.any_eq_false]
      intro v hv
      simp [sentinel_rawEqInt_false (hall2 v hv) 1 (by norm_num) (by norm_num)]
    simp [compute_FA_category, hrv1, hrv2, hadl, hany]
  · intro r h
    simp [specialist_cf_k, assign_unclassified_of_all_sentinel h, map_gi_to_cf_k]

def rNursing999 : Record := Q107_cols.map (fun c => (c, RawVal.int 999))
def rLubben777 : Record := ALL_LUBBEN_COLS.map (fun c => (c, RawVal.int 777))
def rFAna : Record := (Q155_cols ++ Q167_cols).map (fun c => (c, RawVal.na))
def rGI888 : Record := GI_RELEVANT_COLS.map (fun c => (c, RawVal.int 888))

/-- Witness for the amended C1 at concrete all-sentinel records. -/
theorem all_sentinel_unscored_amended_witness :
    compute_nursing_category rNursing999 = .ok none ∧
    compute_social_support_category rLubben777 = none ∧
    compute_FA_category rFAna = .ok none ∧
    specialist_cf_k rGI888 = some 0 :=
  ⟨all_sentinel_unscored_amended.1 rNursing999 (by decide),
   all_sentinel_unscored_amended.2.1 rLubben777 (by decide),
   all_sentinel_unscored_amended.2.2.1 rFAna (by decide),
   all_sentinel_unscored_amended.2.2.2 rGI888 (by decide)⟩

-- ============================================================
-- C2 amended: the Functional Assessment branch contract
-- ============================================================

def allPresent (r : Record) (cols : List String) : Bool :=
  cols.all (fun c => (getCell r c).isSome)

theorem listAllMap {α β : Type} (f : α → β) (l : List α) (p : β → Bool) :
    (l.map f).all p = l.all (fun a => p (f a)) := by
  induction l with
  | nil => rfl
  | cons a as ih => simp [List.all_cons, ih]

theorem listAnyMap {α β : Type} (f : α → β) (l : List α) (p : β → Bool) :
    (l.map f).any p = l.any (fun a => p (f a)) := by
  induction l with
  | nil => rfl
  | cons a as ih => simp [List.any_cons, ih]

theorem optRawEqInt_eq_cellOf (r : Record) (c : String) (k : Int) :
    optRawEqInt (getCell r c) k = rawEqInt (cellOf r c) k := by
  cases h : getCell r c <;> simp [optRawEqInt, cellOf, h, rawEqInt]

theorem optRawEqInt_eq_some {x : Option RawVal} {k : Int}
    (h : optRawEqInt x k = true) : x = some (.int k) := by
  cases x with
  | none => simp [optRawEqInt] at h
  | some v =>
    cases v with
    | int n =>
      simp [optRawEqInt, rawEqInt] at h
      rw [h]
    | str s => simp [optRawEqInt, rawEqInt] at h
    | na => simp [optRawEqInt, rawEqInt] at h

theorem all_optRawEq_present {r : Record} {cols : List String} {k : Int}
    (h : cols.all (fun c => optRawEqInt (getCell r c) k) = true) :
    allPresent r cols = true := by
  rw [List.all_eq_true] at h
  rw [allPresent, List.all_eq_true]
  intro c hc
  rw [optRawEqInt_eq_some (h c hc)]
  rfl

/-- With every listed column present, `row[cols]` returns the cell values. -/
theorem rowVals_eq_map {r : Record} {cols : List String}
    (h : allPresent r cols = true) :
    rowVals r cols = .ok (cols.map (cellOf r)) := by
  induction cols with
  | nil => rfl
  | cons c cs ih =>
    rw [allPresent, List.all_cons, Bool.and_eq_true] at h
    cases hg : getCell r c with
    | none => rw [hg] at h ; simp at h
    | some v =>
      have hr := ih (by rw [allPresent] ; exact h.2)
      simp [rowVals, hg, hr, cellOf]

theorem rawEqInt_one_not_two {v : RawVal} (h : rawEqInt v 1 = true) :
    rawEqInt v 2 = false := by
  cases v with
  | int n => simp [rawEqInt] at h ⊢ ; omega
  | str s => simp [rawEqInt]
  | na => simp [rawEqInt]

/-- C2 amended: category 0 when all six ADL and all seven IADL items equal 2;
category 1 when all ADL items equal 2 and some IADL item equals 1; category 2
when some ADL item equals 1 AND some IADL item equals 1 — the `2` branch of
the source requires an IADL deficit, so an ADL deficit with no IADL deficit
is unscored (see the counterexample). -/
theorem compute_FA_category_branches_amended :
    (∀ r : Record,
      Q155_cols.all (fun c => optRawEqInt (getCell r c) 2) = true →
      Q167_cols.all (fun c => optRawEqInt (getCell r c) 2) = true →
      compute_FA_category r = .ok (some 0)) ∧
    (∀ r : Record,
      Q155_cols.all (fun c => optRawEqInt (getCell r c) 2) = true →
      Q167_cols.any (fun c => optRawEqInt (getCell r c) 1) = true →
      allPresent r Q167_cols = true →
      compute_FA_category r = .ok (some 1)) ∧
    (∀ r : Record,
      Q155_cols.any (fun c => optRawEqInt (getCell r c) 1) = true →
      Q167_cols.any (fun c => optRawEqInt (getCell r c) 1) = true →
      allPresent r Q155_cols = true →
      allPresent r Q167_cols = true →
      compute_FA_category r = .ok (some 2)) := by
  refine ⟨?_, ?_, ?_⟩
  · intro r h1 h2
    have hrv1 := rowVals_eq_map (all_optRawEq_present h1)
    have hrv2 := rowVals_eq_map (all_optRawEq_present h2)
    simp only [optRawEqInt_eq_cellOf] at h1 h2
    have e1 : (Q155_cols.map (cellOf r)).all (fun x => rawEqInt x 2) = true := by
      rw [listAllMap] ; exact h1
    have e2 : (Q167_cols.map (cellOf r)).all (fun x => rawEqInt x 2) = true := by
      rw [listAllMap] ; exact h2
    simp [compute_FA_category, hrv1, hrv2, e1, e2]
  · intro r h1 h2 hp2
    have hrv1 := rowVals_eq_map (all_optRawEq_present h1)
    have hrv2 := rowVals_eq_map hp2
    simp only [optRawEqInt_eq_cellOf] at h1 h2
    have e1 : (Q155_cols.map (cellOf r)).all (fun x => rawEqInt x 2) = true := by
      rw [listAllMap] ; exact h1
    have eAny : (Q167_cols.map (cellOf r)).any (fun x => rawEqInt x 1) = true := by
      rw [listAnyMap] ; exact h2
    have eAll2 : (Q167_cols.map (cellOf r)).all (fun x => rawEqInt x 2) = false := by
      obtain ⟨v, hv, h1v⟩ := List.any_eq_true.mp eAny
      rw [List.all_eq_false]
      exact ⟨v, hv, by simp [rawEqInt_one_not_two h1v]⟩
    simp [compute_FA_category, hrv1, hrv2, e1, eAny, eAll2]
  · intro r h1 h2 hp1 hp2
    have hrv1 := rowVals_eq_map hp1
    have hrv2 := rowVals_eq_map hp2
    simp only [optRawEqInt_eq_cellOf] at h1 h2
    have eAnyA : (Q155_cols.map (cellOf r)).any (fun x => rawEqInt x 1) = true := by
      rw [listAnyMap] ; exact h1
    have eAllA : (Q155_cols.map (cellOf r)).all (fun x => rawEqInt x 2) = false := by
      obtain ⟨v, hv, h1v⟩ := List.any_eq_true.mp eAnyA
      rw [List.all_eq_false]
      exact ⟨v, hv, by simp [rawEqInt_one_not_two h1v]⟩
    have eAnyI : (Q167_cols.map (cellOf r)).any (fun x => rawEqInt x 1) = true := by
      rw [listAnyMap] ; exact h2
    simp [compute_FA_category, hrv1, hrv2, eAllA, eAnyI]

def rFAzero : Record := (Q155_cols ++ Q167_cols).map (fun c => (c, RawVal.int 2))
def rFAone : Record :=
  Q155_cols.map (fun c => (c, RawVal.int 2)) ++
    [("Q167_i", RawVal.int 1)] ++ (Q167_cols.drop 1).map (fun c => (c, RawVal.int 2))
def rFAtwo : Record :=
  [("Q155_i", RawVal.int 1)] ++ (Q155_cols.drop 1).map (fun c => (c, RawVal.int 2)) ++
    [("Q167_i", RawVal.int 1)] ++ (Q167_cols.drop 1).map (fun c => (c, RawVal.int 2))

/-- Witness for the amended C2 at concrete records for the three branches. -/
theorem compute_FA_category_branches_amended_witness :
    compute_FA_category rFAzero = .ok (some 0) ∧
    compute_FA_category rFAone = .ok (some 1) ∧
    compute_FA_category rFAtwo = .ok (some 2) :=
  ⟨compute_FA_category_branches_amended.1 rFAzero (by decide) (by decide),
   compute_FA_category_branches_amended.2.1 rFAone (by decide) (by decide) (by decide),
   compute_FA_category_branches_amended.2.2 rFAtwo (by decide) (by decide)
     (by decide) (by decide)⟩

-- ============================================================
-- C4 amended: sentinel exclusion outside the GI predicates
-- ============================================================

/-- C4 amended: the single-column classifiers exclude their documented
sentinel codes (Hospital Admissions: 666/777 → None; Polypharmacy:
777/999 → None); the Global Impression flag predicates are the documented
exception — `_safe_hosp` coerces 666/777/888/999 to 0 hospitalizations and
`_map_cog_to_binary` maps 777/999 to 0 (a valid Fail). -/
theorem sentinel_exclusion_amended :
    (∀ r : Record,
      (optRawEqInt (getCell r "Q96") 666 || optRawEqInt (getCell r "Q96") 777) = true →
      compute_hospital_category r = .ok none) ∧
    (∀ r : Record,
      (optRawEqInt (getCell r "Q132") 777 || optRawEqInt (getCell r "Q132") 999) = true →
      compute_polypharmacy_category r = .ok none) ∧
    safe_hosp (some (.int 888)) = 0 ∧
    safe_hosp (some (.int 999)) = 0 ∧
    map_cog_to_binary (some (.int 999)) = some 0 := by
  refine ⟨?_, ?_, by decide, by decide, by decide⟩
  · intro r h
    rcases (Bool.or_eq_true _ _).mp h with h | h <;>
      simp [compute_hospital_category, optRawEqInt_eq_some h, pyToInt]
  · intro r h
    rcases (Bool.or_eq_true _ _).mp h with h | h <;>
      simp [compute_polypharmacy_category, optRawEqInt_eq_some h, pyToInt]

def rHosp666 : Record := [("Q96", RawVal.int 666)]
def rPoly999 : Record := [("Q132", RawVal.int 999)]

/-- Witness for the amended C4. -/
theorem sentinel_exclusion_amended_witness :
    compute_hospital_category rHosp666 = .ok none ∧
    compute_polypharmacy_category rPoly999 = .ok none :=
  ⟨sentinel_exclusion_amended.1 rHosp666 (by decide),
   sentinel_exclusion_amended.2.1 rPoly999 (by decide)⟩

-- ============================================================
-- C9: which functions mutate the caller's frame
-- ============================================================

theorem getCell_setCell_self (r : Record) (c : String) (v : RawVal) :
    getCell (setCell r c v) c = some v := by
  induction r with
  | nil => simp [setCell, getCell]
  | cons kv rest ih =>
    by_cases hk : kv.1 = c
    · simp [setCell, getCell, hk]
    · simp [setCell, getCell, hk, ih]

/-- C9 amended: the imputation variants copy the frame and leave the caller's
argument unchanged, but the plain column-derivation helpers write the derived
column into the argument frame itself (`add_FA_column` returns the very frame
it stored the column into). -/
theorem imputation_copies_argument_amended :
    (∀ df p, add_nursing_column_imputed df = .ok p → p.1 = df) ∧
    (∀ df p, add_polypharmacy_column_imputed df = .ok p → p.1 = df) ∧
    (∀ df p, add_FA_column df = .ok p → p.1 = p.2) := by
  refine ⟨?_, ?_, ?_⟩
  · intro df p h
    simp only [add_nursing_column_imputed, impute_pass] at h
    cases hm : mapRows (classifyAndSet "Nursing_Needs_Imputed" compute_nursing_category)
        (mapCols df Q107_cols (imputeCell [(999, 0)])).rows with
    | error e => rw [hm] at h ; exact absurd h (by simp)
    | ok rows' =>
      rw [hm] at h
      injection h with h'
      rw [← h']
  · intro df p h
    simp only [add_polypharmacy_column_imputed, impute_pass] at h
    cases hm : mapRows (classifyAndSet "Polypharmacy_CF_Imputed" compute_polypharmacy_category)
        (mapCols df ["Q132"] (imputeCell [(777, 0), (999, 0)])).rows with
    | error e => rw [hm] at h ; exact absurd h (by simp)
    | ok rows' =>
      rw [hm] at h
      injection h with h'
      rw [← h']
  · intro df p h
    simp only [add_FA_column] at h
    cases hm : mapRows (classifyAndSet "Functional_Assessment" compute_FA_category) df.rows with
    | error e => rw [hm] at h ; exact absurd h (by simp)
    | ok rows' =>
      rw [hm] at h
      injection h with h'
      rw [← h']

/-- A frame carrying the thirteen FA columns, all answered "No". -/
def dfFAmut : DF :=
  { cols := Q155_cols ++ Q167_cols,
    rows := [(Q155_cols ++ Q167_cols).map (fun c => (c, RawVal.int 2))] }

def dfImpWitness : DF :=
  { cols := Q107_cols ++ ["Q132"],
    rows := [Q107_cols.map (fun c => (c, RawVal.int 999)) ++ [("Q132", RawVal.int 7)]] }

/-- Frame returned by the nursing imputation pass on `dfImpWitness`. -/
def dfNurseRes : DF :=
  { cols := ["Q107_1", "Q107_2", "Q107_3", "Q107_4", "Q132", "Nursing_Needs_Imputed"],
    rows := [[("Q107_1", RawVal.int 0), ("Q107_2", RawVal.int 0), ("Q107_3", RawVal.int 0),
      ("Q107_4", RawVal.int 0), ("Q132", RawVal.int 7),
      ("Nursing_Needs_Imputed", RawVal.int 0)]] }

/-- Frame returned by the polypharmacy imputation pass on `dfImpWitness`. -/
def dfPolyRes : DF :=
  { cols := ["Q107_1", "Q107_2", "Q107_3", "Q107_4", "Q132", "Polypharmacy_CF_Imputed"],
    rows := [[("Q107_1", RawVal.int 999), ("Q107_2", RawVal.int 999), ("Q107_3", RawVal.int 999),
      ("Q107_4", RawVal.int 999), ("Q132", RawVal.int 7),
      ("Polypharmacy_CF_Imputed", RawVal.int 1)]] }

/-- Frame returned (and aliased as the post-call argument) by `add_FA_column`
on `dfFAmut`. -/
def dfFAres : DF :=
  { cols := Q155_cols ++ Q167_cols ++ ["Functional_Assessment"],
    rows := [(Q155_cols ++ Q167_cols).map (fun c => (c, RawVal.int 2)) ++
      [("Functional_Assessment", RawVal.int 0)]] }

/-- Witness for the amended C9 at concrete one-row frames. -/
theorem imputation_copies_argument_amended_witness :
    add_nursing_column_imputed dfImpWitness = .ok (dfImpWitness, dfNurseRes) ∧
    (dfImpWitness, dfNurseRes).1 = dfImpWitness ∧
    add_polypharmacy_column_imputed dfImpWitness = .ok (dfImpWitness, dfPolyRes) ∧
    (dfImpWitness, dfPolyRes).1 = dfImpWitness ∧
    add_FA_column dfFAmut = .ok (dfFAres, dfFAres) ∧
    (dfFAres, dfFAres).1 = (dfFAres, dfFAres).2 := by
  have h1 : add_nursing_column_imputed dfImpWitness = .ok (dfImpWitness, dfNurseRes) := rfl
  have h2 : add_polypharmacy_column_imputed dfImpWitness = .ok (dfImpWitness, dfPolyRes) := rfl
  have h3 : add_FA_column dfFAmut = .ok (dfFAres, dfFAres) := rfl
  exact ⟨h1, imputation_copies_argument_amended.1 dfImpWitness _ h1,
    h2, imputation_copies_argument_amended.2.1 dfImpWitness _ h2,
    h3, imputation_copies_argument_amended.2.2 dfFAmut _ h3⟩

/-- C9 counterexample: `add_FA_column` stores the derived column into the
frame it was given — after the call the argument frame differs from the frame
that was passed in (it gained the "Functional_Assessment" column). -/
theorem add_FA_column_mutates_counterexample :
    (add_FA_column dfFAmut).toOption.map Prod.fst ≠ some dfFAmut := by decide

-- ============================================================
-- C10: entirely-missing columns
-- ============================================================

/-- C10 amended: the dataset-level binning helpers degrade to an all-None
output column when the source column is absent from the frame, but the
per-record classifiers raise `KeyError` when their question column is absent
(pandas label indexing), instead of returning None. -/
theorem missing_column_degrades_amended :
    (∀ df s o, dfHasCol df s = false →
      (build_gp_visits df s o).rows.all (fun r => getCell r o == some .na) = true) ∧
    (∀ df a o, dfHasCol df a = false →
      (add_age_bins df a o).rows.all (fun r => getCell r o == some .na) = true) ∧
    (∀ r : Record, getCell r "Q96" = none →
      compute_hospital_category r = .error "KeyError") := by
  refine ⟨?_, ?_, ?_⟩
  · intro df s o h
    rw [List.all_eq_true]
    intro r hr
    rw [build_gp_visits, if_neg (by simp [h])] at hr
    obtain ⟨r0, _, rfl⟩ := List.mem_map.mp hr
    rw [getCell_setCell_self]
    rfl
  · intro df a o h
    rw [List.all_eq_true]
    intro r hr
    rw [add_age_bins, if_neg (by simp [h])] at hr
    obtain ⟨r0, _, rfl⟩ := List.mem_map.mp hr
    rw [getCell_setCell_self]
    rfl
  · intro r h
    simp [compute_hospital_category, h]

/-- C10 counterexample: a record from a frame without the Q96 column makes
the Hospital Admissions classifier raise `KeyError` rather than score None. -/
theorem compute_hospital_category_missing_column_counterexample :
    compute_hospital_category ([] : Record) = .error "KeyError" := rfl

def dfNoUtil : DF := { cols := ["A"], rows := [[("A", RawVal.int 5)]] }

/-- Witness for the amended C10. -/
theorem missing_column_degrades_amended_witness :
    (build_gp_visits dfNoUtil "Q78" "GP_Visits").rows.all
        (fun r => getCell r "GP_Visits" == some .na) = true ∧
    (add_age_bins dfNoUtil "Q2" "Age_Bin").rows.all
        (fun r => getCell r "Age_Bin" == some .na) = true ∧
    compute_hospital_category [("A", RawVal.int 5)] = .error "KeyError" :=
  ⟨missing_column_degrades_amended.1 dfNoUtil "Q78" "GP_Visits" (by decide),
   missing_column_degrades_amended.2.1 dfNoUtil "Q2" "Age_Bin" (by decide),
   missing_column_degrades_amended.2.2 [("A", RawVal.int 5)] (by decide)⟩

-- ============================================================
-- C7: row-wise percentages sum to 100
-- ============================================================

theorem grpIsIn_nil (r : Record) (c : String) : grpIsIn r c [] = false := by
  unfold grpIsIn
  cases h : getCell r c with
  | none => rfl
  | some v => cases v <;> rfl

theorem grpIsIn_cons (r : Record) (c : String) (g : String) (gs : List String) :
    grpIsIn r c (g :: gs) = (grpEq r c g || grpIsIn r c gs) := by
  unfold grpIsIn grpEq
  cases h : getCell r c with
  | none => rfl
  | some v =>
    cases v with
    | str s =>
      rcases eq_or_ne s g with rfl | hne
      · simp [List.contains_cons]
      · simp [List.contains_cons, hne, Ne.symm hne]
    | int n => rfl
    | na => rfl

theorem grpEq_elim {r : Record} {c g : String} (h : grpEq r c g = true) :
    getCell r c = some (.str g) := by
  unfold grpEq at h
  cases hc : getCell r c with
  | none => rw [hc] at h ; simp at h
  | some v =>
    rw [hc] at h
    cases v with
    | str s =>
      simp at h
      rw [h]
    | int n => simp at h
    | na => simp at h

theorem grpIsIn_of_grpEq_mem {r : Record} {c g : String} {gs : List String}
    (h : grpEq r c g = true) (hg : g ∈ gs) : grpIsIn r c gs = true := by
  unfold grpIsIn
  rw [grpEq_elim h]
  simpa using hg

theorem grpIsIn_false_of_grpEq_not_mem {r : Record} {c g : String} {gs : List String}
    (h : grpEq r c g = true) (hg : g ∉ gs) : grpIsIn r c gs = false := by
  unfold grpIsIn
  rw [grpEq_elim h]
  simpa using hg

theorem bool_and_rotate (a b c : Bool) : ((a && b) && c) = ((a && c) && b) := by
  cases a <;> cases b <;> cases c <;> rfl

theorem filter_length_or_disjoint (l : List Record) (p q : Record → Bool)
    (hd : ∀ x ∈ l, p x = true → q x = false) :
    (l.filter (fun x => p x || q x)).length = (l.filter p).length + (l.filter q).length := by
  induction l with
  | nil => rfl
  | cons a as ih =>
    have ih' := ih (fun x hx => hd x (List.mem_cons_of_mem a hx))
    cases hp : p a <;> cases hq : q a
    · simp [List.filter_cons, hp, hq, ih']
    · simp [List.filter_cons, hp, hq, ih']
      omega
    · simp [List.filter_cons, hp, hq, ih']
      omega
    · exact absurd (hd a (List.mem_cons_self a as) hp) (by simp [hq])

/-- The retained members of a category, partitioned by group value over a
duplicate-free list of groups. -/
theorem sum_group_counts (rows : List Record) (A : Record → Bool) (groupCol : String) :
    ∀ gs : List String, gs.Nodup →
      (gs.map (fun g => (rows.filter (fun r => A r && grpEq r groupCol g)).length)).sum
        = (rows.filter (fun r => A r && grpIsIn r groupCol gs)).length := by
  intro gs
  induction gs with
  | nil =>
    intro _
    have hfalse : ∀ r ∈ rows, (A r && grpIsIn r groupCol []) = false := by
      intro r _
      rw [grpIsIn_nil]
      simp
    simp [List.filter_congr hfalse]
  | cons g gs ih =>
    intro hnd
    obtain ⟨hg, hnd'⟩ := List.nodup_cons.mp hnd
    rw [List.map_cons, List.sum_cons, ih hnd']
    have hd : ∀ r ∈ rows, (A r && grpEq r groupCol g) = true →
        (A r && grpIsIn r groupCol gs) = false := by
      intro r _ hr
      rw [Bool.and_eq_true] at hr
      rw [grpIsIn_false_of_grpEq_not_mem hr.2 hg]
      simp
    rw [← filter_length_or_disjoint rows _ _ hd]
    congr 1
    apply List.filter_congr
    intro r _
    rw [grpIsIn_cons]
    cases A r <;> cases grpEq r groupCol g <;> cases grpIsIn r groupCol gs <;> rfl

/-- C7: for every category with at least one retained member, the row-wise
percentages of `cf_distribution_rowwise_by_group`, summed over the (distinct)
groups of the table, are exactly 100 (so certainly within ±0.1). -/
theorem row_pct_sums_to_100 (df : DF) (cfCol groupCol : String)
    (cfOrder : List Int) (groupOrder : List String) (cat : Int)
    (hnd : groupOrder.Nodup)
    (hpos : 0 < cf_total df cfCol groupCol cfOrder groupOrder cat) :
    (groupOrder.map (fun g => row_pct df cfCol groupCol cfOrder groupOrder cat g)).sum
      = 100 := by
  set A : Record → Bool :=
    fun r => cfIsIn r cfCol cfOrder && optRawEqInt (getCell r cfCol) cat with hA
  have hn : ∀ g ∈ groupOrder, ct_n df cfCol groupCol cfOrder groupOrder cat g
      = (df.rows.filter (fun r => A r && grpEq r groupCol g)).length := by
    intro g hg
    unfold ct_n
    congr 1
    apply List.filter_congr
    intro r _
    cases hge : grpEq r groupCol g
    · simp [rowRetained, hA, hge]
    · have hgi := grpIsIn_of_grpEq_mem hge hg
      simp [rowRetained, hA, hge, hgi]
  have ht : cf_total df cfCol groupCol cfOrder groupOrder cat
      = (df.rows.filter (fun r => A r && grpIsIn r groupCol groupOrder)).length := by
    unfold cf_total
    congr 1
    apply List.filter_congr
    intro r _
    rw [rowRetained, hA]
    exact bool_and_rotate _ _ _
  have key : (groupOrder.map
        (fun g => ct_n df cfCol groupCol cfOrder groupOrder cat g)).sum
      = cf_total df cfCol groupCol cfOrder groupOrder cat := by
    rw [ht, ← sum_group_counts df.rows A groupCol groupOrder hnd]
    exact congrArg List.sum (List.map_congr_left hn)
  set T : Nat := cf_total df cfCol groupCol cfOrder groupOrder cat with hT
  have hTne : (T : ℚ) ≠ 0 := by
    exact_mod_cast Nat.pos_iff_ne_zero.mp hpos
  have hstep : ∀ g ∈ groupOrder, row_pct df cfCol groupCol cfOrder groupOrder cat g
      = (ct_n df cfCol groupCol cfOrder groupOrder cat g : ℚ) * (100 / (T : ℚ)) := by
    intro g _
    rw [row_pct, ← hT]
    field_simp
  rw [List.map_congr_left hstep, List.sum_map_mul_right]
  have hcast : ((groupOrder.map
        (fun g => (ct_n df cfCol groupCol cfOrder groupOrder cat g : ℚ))).sum)
      = (T : ℚ) := by
    rw [← key]
    push_cast
    rw [List.map_map]
    rfl
  rw [hcast]
  field_simp

def dfRowPct : DF :=
  { cols := ["CF", "G"],
    rows := [[("CF", .int 0), ("G", .str "Male")],
             [("CF", .int 0), ("G", .str "Female")],
             [("CF", .int 0), ("G", .str "Male")]] }

/-- Witness for C7 on a concrete three-member category split 2/1 by gender. -/
theorem row_pct_sums_to_100_witness :
    0 < cf_total dfRowPct "CF" "G" [0, 1, 2] ["Male", "Female"] 0 ∧
    (["Male", "Female"].map
        (fun g => row_pct dfRowPct "CF" "G" [0, 1, 2] ["Male", "Female"] 0 g)).sum = 100 :=
  ⟨by decide,
   row_pct_sums_to_100 dfRowPct "CF" "G" [0, 1, 2] ["Male", "Female"] 0
     (by decide) (by decide)⟩

-- ============================================================
-- C8: the imputation pass is idempotent
-- ============================================================

theorem getCell_setCell_ne (r : Record) {c k : String} (h : k ≠ c) (v : RawVal) :
    getCell (setCell r c v) k = getCell r k := by
  induction r with
  | nil => simp [setCell, getCell, Ne.symm h]
  | cons kv rest ih =>
    by_cases hk : kv.1 = c
    · simp [setCell, getCell, hk, Ne.symm h]
    · simp [setCell, getCell, hk, ih]

theorem setCell_setCell_self (r : Record) (c : String) (v : RawVal) :
    setCell (setCell r c v) c v = setCell r c v := by
  induction r with
  | nil => simp [setCell]
  | cons kv rest ih =>
    by_cases hk : kv.1 = c
    · simp [setCell, hk]
    · simp [setCell, hk, ih]

theorem rowMapCells_setCell (p : String → Bool) (g : RawVal → RawVal)
    (r : Record) (c : String) (v : RawVal) :
    rowMapCells p g (setCell r c v)
      = setCell (rowMapCells p g r) c (if p c then g v else v) := by
  induction r with
  | nil => simp [setCell, rowMapCells]
  | cons kv rest ih =>
    obtain ⟨k, w⟩ := kv
    by_cases hk : k = c
    · subst hk
      simp [setCell, rowMapCells]
    · simp [setCell, rowMapCells, hk, ih]

theorem rowMapCells_idem (p1 p2 : String → Bool) (g : RawVal → RawVal)
    (hpq : ∀ k, p2 k = p1 k) (hg : ∀ v, g (g v) = g v) (r : Record) :
    rowMapCells p2 g (rowMapCells p1 g r) = rowMapCells p1 g r := by
  induction r with
  | nil => rfl
  | cons kv rest ih =>
    obtain ⟨k, w⟩ := kv
    by_cases hpk : p1 k
    · simp [rowMapCells, hpk, hpq k, hg w, ih]
    · simp [rowMapCells, hpk, hpq k, ih]

theorem getCell_rowMapCells (p : String → Bool) (g : RawVal → RawVal)
    (r : Record) (c : String) :
    getCell (rowMapCells p g r) c
      = (getCell r c).map (fun v => if p c then g v else v) := by
  induction r with
  | nil => rfl
  | cons kv rest ih =>
    obtain ⟨k, w⟩ := kv
    by_cases hk : k = c
    · subst hk
      simp [rowMapCells, getCell]
    · simp [rowMapCells, getCell, hk, ih]

theorem mapRows_ok_self (F : Record → Except String Record) :
    ∀ l : List Record, (∀ x ∈ l, F x = .ok x) → mapRows F l = .ok l := by
  intro l
  induction l with
  | nil => intro _ ; rfl
  | cons a as ih =>
    intro h
    have ha := h a (List.mem_cons_self a as)
    have has := ih (fun x hx => h x (List.mem_cons_of_mem a hx))
    simp [mapRows, ha, has]

theorem mapRows_mem_spec (F : Record → Except String Record) :
    ∀ l l' : List Record, mapRows F l = .ok l' → ∀ x ∈ l', ∃ r ∈ l, F r = .ok x := by
  intro l
  induction l with
  | nil =>
    intro l' h
    simp only [mapRows] at h
    injection h with h'
    subst h'
    intro x hx
    exact absurd hx (by simp)
  | cons a as ih =>
    intro l' h
    simp only [mapRows] at h
    cases hfa : F a with
    | error e => rw [hfa] at h ; exact absurd h (by simp)
    | ok a' =>
      rw [hfa] at h
      cases hrec : mapRows F as with
      | error e => rw [hrec] at h ; exact absurd h (by simp)
      | ok as' =>
        rw [hrec] at h
        injection h with h'
        subst h'
        intro x hx
        rcases List.mem_cons.mp hx with rfl | hx
        · exact ⟨a, List.mem_cons_self a as, hfa⟩
        · obtain ⟨r, hr, hfr⟩ := ih as' hrec x hx
          exact ⟨r, List.mem_cons_of_mem a hr, hfr⟩

theorem pyToNumCell_not_str (v : RawVal) (s : String) : pyToNumCell v ≠ .str s := by
  cases v with
  | int n => simp [pyToNumCell]
  | na => simp [pyToNumCell]
  | str s0 =>
    cases h : s0.toInt? <;> simp [pyToNumCell, h]

/-- When no replacement value is itself a key of the mapping, one imputed
cell is a fixed point of the imputation. -/
theorem imputeCell_idem (m : List (Int × Int))
    (hm : ∀ n k : Int, m.lookup n = some k → m.lookup k = none) (v : RawVal) :
    imputeCell m (imputeCell m v) = imputeCell m v := by
  unfold imputeCell
  cases hw : pyToNumCell v with
  | str s => exact absurd hw (pyToNumCell_not_str v s)
  | na => rfl
  | int n =>
    unfold replaceVal
    cases hl : m.lookup n with
    | none => simp [pyToNumCell, hl]
    | some k => simp [pyToNumCell, hl, hm n k hl]

theorem rowVals_congr {r1 r2 : Record} :
    ∀ {cols : List String}, (∀ c ∈ cols, getCell r1 c = getCell r2 c) →
      rowVals r1 cols = rowVals r2 cols := by
  intro cols
  induction cols with
  | nil => intro _ ; rfl
  | cons c cs ih =>
    intro h
    have hc := h c (List.mem_cons_self c cs)
    have hcs := ih (fun x hx => h x (List.mem_cons_of_mem c hx))
    simp [rowVals, hc, hcs]

theorem compute_nursing_category_congr {r1 r2 : Record}
    (h : ∀ c ∈ Q107_cols, getCell r1 c = getCell r2 c) :
    compute_nursing_category r1 = compute_nursing_category r2 := by
  unfold compute_nursing_category
  rw [rowVals_congr h]

theorem compute_polypharmacy_category_congr {r1 r2 : Record}
    (h : ∀ c ∈ ["Q132"], getCell r1 c = getCell r2 c) :
    compute_polypharmacy_category r1 = compute_polypharmacy_category r2 := by
  unfold compute_polypharmacy_category
  rw [h "Q132" (by simp)]

theorem contains_append_single (cols : List String) (out k : String) (hk : k ≠ out) :
    (cols ++ [out]).contains k = cols.contains k := by
  simp [hk]

theorem contains_addColName (cols : List String) (out k : String) (hk : k ≠ out) :
    (addColName cols out).contains k = cols.contains k := by
  unfold addColName
  by_cases h : cols.contains out
  · rw [if_pos h]
  · rw [if_neg h]
    exact contains_append_single cols out k hk

/-- The generic idempotence of the imputation pass: when the classifier reads
only the imputation columns, the label column is not an imputation column,
and no replacement value is a key of the mapping, running the pass a second
time reproduces the same labeled column. -/
theorem impute_pass_idem
    (icols : List String) (m : List (Int × Int)) (outCol : String)
    (classify : Record → Except String (Option Nat))
    (hcong : ∀ r1 r2 : Record, (∀ c ∈ icols, getCell r1 c = getCell r2 c) →
      classify r1 = classify r2)
    (hout : icols.contains outCol = false)
    (hm : ∀ n k : Int, m.lookup n = some k → m.lookup k = none)
    (df : DF) (p q : DF × DF)
    (h1 : impute_pass icols m outCol classify df = .ok p)
    (h2 : impute_pass icols m outCol classify p.2 = .ok q) :
    colVals q.2 outCol = colVals p.2 outCol := by
  have hgidem : ∀ v, imputeCell m (imputeCell m v) = imputeCell m v :=
    fun v => imputeCell_idem m hm v
  simp only [impute_pass] at h1
  cases hm1 : mapRows (classifyAndSet outCol classify)
      (mapCols df icols (imputeCell m)).rows with
  | error e => rw [hm1] at h1 ; exact absurd h1 (by simp)
  | ok rows1 =>
    rw [hm1] at h1
    injection h1 with h1'
    have hp2 : p.2 = { cols := addColName df.cols outCol, rows := rows1 } := by
      rw [← h1']
      rfl
    have hpq : ∀ k, (icols.contains k && (addColName df.cols outCol).contains k)
        = (icols.contains k && df.cols.contains k) := by
      intro k
      cases hik : icols.contains k
      · simp
      · have hkne : k ≠ outCol := by
          intro hkeq
          rw [hkeq, hout] at hik
          exact absurd hik (by simp)
        rw [contains_addColName df.cols outCol k hkne]
    have hfix : ∀ x ∈ rows1,
        rowMapCells (fun k => icols.contains k &&
          (addColName df.cols outCol).contains k) (imputeCell m) x = x
        ∧ classifyAndSet outCol classify x = .ok x := by
      intro x hx
      obtain ⟨rr, hrr, hF⟩ := mapRows_mem_spec _ _ _ hm1 x hx
      simp only [mapCols] at hrr
      obtain ⟨r0, _, rfl⟩ := List.mem_map.mp hrr
      unfold classifyAndSet at hF
      cases hcl : classify (rowMapCells
          (fun k => icols.contains k && df.cols.contains k) (imputeCell m) r0) with
      | error e => rw [hcl] at hF ; exact absurd hF (by simp)
      | ok lab =>
        rw [hcl] at hF
        injection hF with hF'
        subst hF'
        have hPout : (icols.contains outCol &&
            (addColName df.cols outCol).contains outCol) = false := by
          rw [hout]
          simp
        constructor
        · rw [rowMapCells_setCell, rowMapCells_idem _ _ _ hpq hgidem, hPout]
          simp
        · unfold classifyAndSet
          have hceq : classify (setCell (rowMapCells
                (fun k => icols.contains k && df.cols.contains k)
                (imputeCell m) r0) outCol (labelVal lab))
              = classify (rowMapCells
                (fun k => icols.contains k && df.cols.contains k)
                (imputeCell m) r0) := by
            apply hcong
            intro c hc
            have hcc : icols.contains c = true := by simpa using hc
            have hcne : c ≠ outCol := by
              intro hceq'
              rw [hceq', hout] at hcc
              exact absurd hcc (by simp)
            exact getCell_setCell_ne _ hcne _
          rw [hceq, hcl]
          simp [setCell_setCell_self]
    have hrows2 : (mapCols p.2 icols (imputeCell m)).rows = rows1 := by
      rw [hp2]
      simp only [mapCols]
      calc rows1.map (rowMapCells (fun k => icols.contains k &&
              (addColName df.cols outCol).contains k) (imputeCell m))
          = rows1.map id := List.map_congr_left (fun x hx => (hfix x hx).1)
        _ = rows1 := List.map_id rows1
    have hself : mapRows (classifyAndSet outCol classify) rows1 = .ok rows1 :=
      mapRows_ok_self _ rows1 (fun x hx => (hfix x hx).2)
    simp only [impute_pass] at h2
    rw [hrows2, hself] at h2
    injection h2 with h2'
    rw [← h2', hp2]
    rfl

/-- C8: applying the shipped imputation passes twice (999→0 on the Q107
columns for Nursing Needs; 777/999→0 on Q132 for Polypharmacy) yields the
same labeled column as applying them once — the replacement value 0 is not a
key of either mapping. -/
theorem impute_pass_twice_same_column :
    (∀ (df : DF) (p q : DF × DF), add_nursing_column_imputed df = .ok p →
      add_nursing_column_imputed p.2 = .ok q →
      colVals q.2 "Nursing_Needs_Imputed" = colVals p.2 "Nursing_Needs_Imputed") ∧
    (∀ (df : DF) (p q : DF × DF), add_polypharmacy_column_imputed df = .ok p →
      add_polypharmacy_column_imputed p.2 = .ok q →
      colVals q.2 "Polypharmacy_CF_Imputed" = colVals p.2 "Polypharmacy_CF_Imputed") := by
  constructor
  · intro df p q h1 h2
    refine impute_pass_idem Q107_cols [(999, 0)] "Nursing_Needs_Imputed"
      compute_nursing_category (fun r1 r2 h => compute_nursing_category_congr h)
      (by decide) ?_ df p q h1 h2
    intro n k h
    by_cases hn : n = (999 : Int)
    · subst hn
      simp [List.lookup] at h
      subst h
      rfl
    · have hb : (n == (999 : Int)) = false := by simp [hn]
      simp [List.lookup, hb] at h
  · intro df p q h1 h2
    refine impute_pass_idem ["Q132"] [(777, 0), (999, 0)] "Polypharmacy_CF_Imputed"
      compute_polypharmacy_category (fun r1 r2 h => compute_polypharmacy_category_congr h)
      (by decide) ?_ df p q h1 h2
    intro n k h
    by_cases h7 : n = (777 : Int)
    · subst h7
      simp [List.lookup] at h
      subst h
      rfl
    · by_cases h9 : n = (999 : Int)
      · subst h9
        simp [List.lookup] at h
        subst h
        rfl
      · have hb7 : (n == (777 : Int)) = false := by simp [h7]
        have hb9 : (n == (999 : Int)) = false := by simp [h9]
        simp [List.lookup, hb7, hb9] at h

def dfIdem : DF :=
  { cols := ["Q107_1", "Q107_2", "Q107_3", "Q107_4", "Q132"],
    rows := [[("Q107_1", RawVal.int 999), ("Q107_2", RawVal.int 999),
      ("Q107_3", RawVal.int 999), ("Q107_4", RawVal.int 999),
      ("Q132", RawVal.int 777)]] }

/-- Result of one nursing imputation pass over `dfIdem`. -/
def dfIdemN : DF :=
  { cols := ["Q107_1", "Q107_2", "Q107_3", "Q107_4", "Q132", "Nursing_Needs_Imputed"],
    rows := [[("Q107_1", RawVal.int 0), ("Q107_2", RawVal.int 0),
      ("Q107_3", RawVal.int 0), ("Q107_4", RawVal.int 0),
      ("Q132", RawVal.int 777), ("Nursing_Needs_Imputed", RawVal.int 0)]] }

/-- Result of one polypharmacy imputation pass over `dfIdem`. -/
def dfIdemP : DF :=
  { cols := ["Q107_1", "Q107_2", "Q107_3", "Q107_4", "Q132", "Polypharmacy_CF_Imputed"],
    rows := [[("Q107_1", RawVal.int 999), ("Q107_2", RawVal.int 999),
      ("Q107_3", RawVal.int 999), ("Q107_4", RawVal.int 999),
      ("Q132", RawVal.int 0), ("Polypharmacy_CF_Imputed", RawVal.int 0)]] }

/-- Witness for C8: the double application at a concrete one-row frame. -/
theorem impute_pass_twice_same_column_witness :
    colVals ((dfIdemN, dfIdemN) : DF × DF).2 "Nursing_Needs_Imputed"
      = colVals ((dfIdem, dfIdemN) : DF × DF).2 "Nursing_Needs_Imputed" ∧
    colVals ((dfIdemP, dfIdemP) : DF × DF).2 "Polypharmacy_CF_Imputed"
      = colVals ((dfIdem, dfIdemP) : DF × DF).2 "Polypharmacy_CF_Imputed" :=
  ⟨impute_pass_twice_same_column.1 dfIdem (dfIdem, dfIdemN) (dfIdemN, dfIdemN) rfl rfl,
   impute_pass_twice_same_column.2 dfIdem (dfIdem, dfIdemP) (dfIdemP, dfIdemP) rfl rfl⟩
